import Mathlib

/-!
Verification of the VRM digital-signage repository's animation subsystem.

The definitions below are a shallow embedding of the JavaScript sources:

* `src/js/main.js` (the `MixamoVRMMapper` class): bone-name mapping,
  animation retargeting, hip-rotation correction, clip validation;
* `src/js/VRMBoneAnalyzer.js`: the analyzer's bone-mapping generator;
* `src/js/CharacterStateMachine.js`: dwell-time guarded state changes;
* `src/js/CharacterController.js`: screen boundaries and random destinations;
* `src/js/AnimationLoader.js`: manifest batch loading and classification;
* `src/js/ExpressionManager.js`: facial-expression weight bookkeeping.

Modelling conventions:

* JavaScript numbers are modelled as exact rationals (`ℚ`); the one
  trigonometric constant in the sources, the quaternion of a 180-degree
  rotation about Y, is evaluated exactly (sin(π/2) = 1, cos(π/2) = 0).
* A JavaScript value that may be `null`/`undefined` is an `Option`.
* JavaScript division is partial: `0/0` is `NaN`, modelled as `none`.
* Object-field mutation is modelled by explicit state passing; for the
  frame-effect claim about `retargetAnimation` a heap of tracks addressed
  by numeric references makes cloning and in-place mutation explicit.
-/

/-- A keyframe track (`THREE.KeyframeTrack`): a `<jointName>.<property>`
target path, keyframe times and a flat array of keyframe values. -/
structure Track where
  name : String
  times : List ℚ
  values : List ℚ
deriving DecidableEq, Repr

/-- An animation clip (`THREE.AnimationClip`): name, duration, tracks. -/
structure Clip where
  name : String
  duration : ℚ
  tracks : List Track
deriving DecidableEq, Repr

/-- A quaternion with rational components, in THREE.js (x, y, z, w) order. -/
structure Quat where
  x : ℚ
  y : ℚ
  z : ℚ
  w : ℚ
deriving DecidableEq, Repr

/-- `THREE.Quaternion.multiplyQuaternions(a, b)`: the Hamilton product
`a * b` in THREE.js component order. -/
def quatMultiply (a b : Quat) : Quat where
  x := a.x * b.w + a.w * b.x + a.y * b.z - a.z * b.y
  y := a.y * b.w + a.w * b.y + a.z * b.x - a.x * b.z
  z := a.z * b.w + a.w * b.z + a.x * b.y - a.y * b.x
  w := a.w * b.w - a.x * b.x - a.y * b.y - a.z * b.z

/-- `q.premultiply(p)` in THREE.js sets `q` to `p * q`. -/
def quatPremultiply (q p : Quat) : Quat := quatMultiply p q

/-- The constant built in `adjustHipRotation`:
`new THREE.Quaternion().setFromAxisAngle(new THREE.Vector3(0,1,0), Math.PI)`,
i.e. `(0·sin(π/2), 1·sin(π/2), 0·sin(π/2), cos(π/2)) = (0, 1, 0, 0)`
in exact arithmetic. -/
def yRotation180 : Quat := ⟨0, 1, 0, 0⟩

/-- The loop body of `MixamoVRMMapper.adjustHipRotation`: walk the flat
value buffer four entries at a time, premultiplying each keyframe
quaternion by `yRotation180`.  (The source loop reads groups of four;
a buffer whose length is a multiple of four is consumed exactly.) -/
def adjustHipValues : List ℚ → List ℚ
  | x :: y :: z :: w :: rest =>
    let adjusted := quatPremultiply ⟨x, y, z, w⟩ yRotation180
    adjusted.x :: adjusted.y :: adjusted.z :: adjusted.w :: adjustHipValues rest
  | l => l

/-- `MixamoVRMMapper.adjustHipRotation`: rewrite every keyframe quaternion
of the track's value buffer. -/
def adjustHipRotation (track : Track) : Track :=
  { track with values := adjustHipValues track.values }

/-- JavaScript `name.split('.')` on the track path, character by
character (structural recursion over the string's characters). -/
def splitCharsOnDot : List Char → List (List Char)
  | [] => [[]]
  | c :: rest =>
    let r := splitCharsOnDot rest
    if c = '.' then [] :: r
    else
      match r with
      | g :: gs => (c :: g) :: gs
      | [] => [[c]]

/-- `name.split('.')` as a list of strings. -/
def jsSplitOnDot (s : String) : List String :=
  (splitCharsOnDot s.data).map (fun cs => ⟨cs⟩)

/-- JavaScript `parts.join('.')`. -/
def jsJoinDot : List String → String
  | [] => ""
  | [s] => s
  | s :: rest => s ++ "." ++ jsJoinDot rest

/-- Per-track body of the `retargetAnimation` loop: split the track path
at dots, look the joint name up in the bone map, and if it resolves to a
truthy name, clone the track under the rewritten path, applying the hip
rotation correction to the clone of the hip-root quaternion track.
`none` means the track is skipped.  (In JavaScript `if (vrmBoneName)`
is falsy for `undefined`, `null` and the empty string.) -/
def retargetTrack (boneMap : String → Option String) (track : Track) : Option Track :=
  let trackSplits := jsSplitOnDot track.name
  let boneName := trackSplits.headD ""
  let propertyName := jsJoinDot (trackSplits.drop 1)
  match boneMap boneName with
  | none => none
  | some vrmBoneName =>
    if vrmBoneName = "" then none
    else
      let retargetedTrack := { track with name := vrmBoneName ++ "." ++ propertyName }
      some (if boneName = "mixamorigHips" ∧ propertyName = "quaternion"
            then adjustHipRotation retargetedTrack
            else retargetedTrack)

/-- The JavaScript idiom `name || fallback` for an optional string:
`null`, `undefined` and the empty string are falsy and yield the
fallback. -/
def jsOrString (nm : Option String) (fallback : String) : String :=
  match nm with
  | some n => if n = "" then fallback else n
  | none => fallback

/-- `MixamoVRMMapper.retargetAnimation(srcClip, name = null)`: build a new
clip from the mapped tracks; the new clip's name is
`name || srcClip.name + " (Retargeted)"` (a falsy `name` — absent or
empty — falls back to the suffixed source name). -/
def retargetAnimation (boneMap : String → Option String) (nm : Option String)
    (srcClip : Clip) : Clip where
  name := jsOrString nm (srcClip.name ++ " (Retargeted)")
  duration := srcClip.duration
  tracks := srcClip.tracks.filterMap (retargetTrack boneMap)

/-- JavaScript division of nonnegative counts `a / b`: defined unless
`b = 0`; there the source's only reachable case is `0 / 0 = NaN`,
modelled as `none`. -/
def jsDiv (a b : ℚ) : Option ℚ := if b = 0 then none else some (a / b)

/-- Result record of `MixamoVRMMapper.validateClip`. -/
structure ValidationResult where
  valid : Nat
  invalid : Nat
  total : Nat
  validRatio : Option ℚ
  validTracks : List Track
  invalidTracks : List Track
deriving DecidableEq, Repr

/-- `MixamoVRMMapper.validateClip(clip)`: classify each track by whether
its joint name is among the available bone names (the source's single
pass pushing onto two lists is the pair of complementary filters), and
return counts together with `validTracks.length / clip.tracks.length`. -/
def validateClip (availableBones : List String) (clip : Clip) : ValidationResult :=
  let validTracks := clip.tracks.filter
    (fun t => ((jsSplitOnDot t.name).headD "") ∈ availableBones)
  let invalidTracks := clip.tracks.filter
    (fun t => ¬ ((jsSplitOnDot t.name).headD "") ∈ availableBones)
  { valid := validTracks.length
    invalid := invalidTracks.length
    total := clip.tracks.length
    validRatio := jsDiv validTracks.length clip.tracks.length
    validTracks := validTracks
    invalidTracks := invalidTracks }

/-- The model's humanoid joint table as collected by
`MixamoVRMMapper.analyzeVRMStructure`: the VRM humanoid bone names that
have a scene node, paired with that node's name.  (Entries of
`vrm.humanoid.humanBones` without a node are not registered.) -/
abbrev HumanoidTable := List (String × String)

/-- `MixamoVRMMapper.getVRMBoneByName(boneName)`: the registered node
name for a VRM humanoid bone name, or `null`. -/
def getVRMBoneByName (tbl : HumanoidTable) (boneName : String) : Option String :=
  tbl.lookup boneName

/-- The core skeleton entries of the object literal in
`getMixamoToVRMBoneMap`, as (Mixamo name, VRM humanoid bone name) pairs;
each value in the source is a `getVRMBoneByName` call on the second
component. -/
def coreBonePairs : List (String × String) :=
  [("mixamorigHips", "hips"),
   ("mixamorigSpine", "spine"),
   ("mixamorigSpine1", "chest"),
   ("mixamorigSpine2", "upperChest"),
   ("mixamorigNeck", "neck"),
   ("mixamorigHead", "head"),
   ("mixamorigLeftShoulder", "leftShoulder"),
   ("mixamorigLeftArm", "leftUpperArm"),
   ("mixamorigLeftForeArm", "leftLowerArm"),
   ("mixamorigLeftHand", "leftHand"),
   ("mixamorigRightShoulder", "rightShoulder"),
   ("mixamorigRightArm", "rightUpperArm"),
   ("mixamorigRightForeArm", "rightLowerArm"),
   ("mixamorigRightHand", "rightHand"),
   ("mixamorigLeftUpLeg", "leftUpperLeg"),
   ("mixamorigLeftLeg", "leftLowerLeg"),
   ("mixamorigLeftFoot", "leftFoot"),
   ("mixamorigLeftToeBase", "leftToes"),
   ("mixamorigRightUpLeg", "rightUpperLeg"),
   ("mixamorigRightLeg", "rightLowerLeg"),
   ("mixamorigRightFoot", "rightFoot"),
   ("mixamorigRightToeBase", "rightToes")]

/-- Left-hand finger entries added by `addFingerBoneMapping`. -/
def leftFingerBonePairs : List (String × String) :=
  [("mixamorigLeftHandThumb1", "leftThumbProximal"),
   ("mixamorigLeftHandThumb2", "leftThumbIntermediate"),
   ("mixamorigLeftHandThumb3", "leftThumbDistal"),
   ("mixamorigLeftHandIndex1", "leftIndexProximal"),
   ("mixamorigLeftHandIndex2", "leftIndexIntermediate"),
   ("mixamorigLeftHandIndex3", "leftIndexDistal"),
   ("mixamorigLeftHandMiddle1", "leftMiddleProximal"),
   ("mixamorigLeftHandMiddle2", "leftMiddleIntermediate"),
   ("mixamorigLeftHandMiddle3", "leftMiddleDistal"),
   ("mixamorigLeftHandRing1", "leftRingProximal"),
   ("mixamorigLeftHandRing2", "leftRingIntermediate"),
   ("mixamorigLeftHandRing3", "leftRingDistal"),
   ("mixamorigLeftHandPinky1", "leftLittleProximal"),
   ("mixamorigLeftHandPinky2", "leftLittleIntermediate"),
   ("mixamorigLeftHandPinky3", "leftLittleDistal")]

/-- Right-hand finger entries added by `addFingerBoneMapping`. -/
def rightFingerBonePairs : List (String × String) :=
  [("mixamorigRightHandThumb1", "rightThumbProximal"),
   ("mixamorigRightHandThumb2", "rightThumbIntermediate"),
   ("mixamorigRightHandThumb3", "rightThumbDistal"),
   ("mixamorigRightHandIndex1", "rightIndexProximal"),
   ("mixamorigRightHandIndex2", "rightIndexIntermediate"),
   ("mixamorigRightHandIndex3", "rightIndexDistal"),
   ("mixamorigRightHandMiddle1", "rightMiddleProximal"),
   ("mixamorigRightHandMiddle2", "rightMiddleIntermediate"),
   ("mixamorigRightHandMiddle3", "rightMiddleDistal"),
   ("mixamorigRightHandRing1", "rightRingProximal"),
   ("mixamorigRightHandRing2", "rightRingIntermediate"),
   ("mixamorigRightHandRing3", "rightRingDistal"),
   ("mixamorigRightHandPinky1", "rightLittleProximal"),
   ("mixamorigRightHandPinky2", "rightLittleIntermediate"),
   ("mixamorigRightHandPinky3", "rightLittleDistal")]

/-- `MixamoVRMMapper.getMixamoToVRMBoneMap()` together with
`addFingerBoneMapping`: an entry per Mixamo joint name, whose value is
`getVRMBoneByName` of the corresponding VRM bone name (`null` when the
model lacks that humanoid bone).  `Object.assign` of the three disjoint
literals is the list append. -/
def getMixamoToVRMBoneMap (tbl : HumanoidTable) : List (String × Option String) :=
  (coreBonePairs ++ leftFingerBonePairs ++ rightFingerBonePairs).map
    (fun pr => (pr.1, getVRMBoneByName tbl pr.2))

/-- Reading the built bone map the way `retargetAnimation` does
(`boneMap[boneName]`): an absent key and a `null` value both fail the
truthiness test, so both collapse to `none`. -/
def boneMapLookup (tbl : HumanoidTable) (boneName : String) : Option String :=
  (((getMixamoToVRMBoneMap tbl).lookup boneName).map id).join

/-- The `vrmToMixamo` table of
`VRMBoneAnalyzer.generateAccurateBoneMapping`, as
(VRM humanoid bone name, Mixamo name) pairs. -/
def vrmToMixamoPairs : List (String × String) :=
  [("hips", "mixamorigHips"),
   ("spine", "mixamorigSpine"),
   ("chest", "mixamorigSpine1"),
   ("upperChest", "mixamorigSpine2"),
   ("neck", "mixamorigNeck"),
   ("head", "mixamorigHead"),
   ("leftShoulder", "mixamorigLeftShoulder"),
   ("leftUpperArm", "mixamorigLeftArm"),
   ("leftLowerArm", "mixamorigLeftForeArm"),
   ("leftHand", "mixamorigLeftHand"),
   ("rightShoulder", "mixamorigRightShoulder"),
   ("rightUpperArm", "mixamorigRightArm"),
   ("rightLowerArm", "mixamorigRightForeArm"),
   ("rightHand", "mixamorigRightHand"),
   ("leftUpperLeg", "mixamorigLeftUpLeg"),
   ("leftLowerLeg", "mixamorigLeftLeg"),
   ("leftFoot", "mixamorigLeftFoot"),
   ("leftToes", "mixamorigLeftToeBase"),
   ("rightUpperLeg", "mixamorigRightUpLeg"),
   ("rightLowerLeg", "mixamorigRightLeg"),
   ("rightFoot", "mixamorigRightFoot"),
   ("rightToes", "mixamorigRightToeBase"),
   ("leftThumbProximal", "mixamorigLeftHandThumb1"),
   ("leftThumbIntermediate", "mixamorigLeftHandThumb2"),
   ("leftThumbDistal", "mixamorigLeftHandThumb3"),
   ("leftIndexProximal", "mixamorigLeftHandIndex1"),
   ("leftIndexIntermediate", "mixamorigLeftHandIndex2"),
   ("leftIndexDistal", "mixamorigLeftHandIndex3"),
   ("leftMiddleProximal", "mixamorigLeftHandMiddle1"),
   ("leftMiddleIntermediate", "mixamorigLeftHandMiddle2"),
   ("leftMiddleDistal", "mixamorigLeftHandMiddle3"),
   ("leftRingProximal", "mixamorigLeftHandRing1"),
   ("leftRingIntermediate", "mixamorigLeftHandRing2"),
   ("leftRingDistal", "mixamorigLeftHandRing3"),
   ("leftLittleProximal", "mixamorigLeftHandPinky1"),
   ("leftLittleIntermediate", "mixamorigLeftHandPinky2"),
   ("leftLittleDistal", "mixamorigLeftHandPinky3"),
   ("rightThumbProximal", "mixamorigRightHandThumb1"),
   ("rightThumbIntermediate", "mixamorigRightHandThumb2"),
   ("rightThumbDistal", "mixamorigRightHandThumb3"),
   ("rightIndexProximal", "mixamorigRightHandIndex1"),
   ("rightIndexIntermediate", "mixamorigRightHandIndex2"),
   ("rightIndexDistal", "mixamorigRightHandIndex3"),
   ("rightMiddleProximal", "mixamorigRightHandMiddle1"),
   ("rightMiddleIntermediate", "mixamorigRightHandMiddle2"),
   ("rightMiddleDistal", "mixamorigRightHandMiddle3"),
   ("rightRingProximal", "mixamorigRightHandRing1"),
   ("rightRingIntermediate", "mixamorigRightHandRing2"),
   ("rightRingDistal", "mixamorigRightHandRing3"),
   ("rightLittleProximal", "mixamorigRightHandPinky1"),
   ("rightLittleIntermediate", "mixamorigRightHandPinky2"),
   ("rightLittleDistal", "mixamorigRightHandPinky3")]

/-- `VRMBoneAnalyzer.generateAccurateBoneMapping`: for each
(VRM bone, Mixamo bone) pair whose VRM bone is present in the humanoid
table, emit `mapping[mixamoBone] = humanoidBones[vrmBone].name`. -/
def generateAccurateBoneMapping (tbl : HumanoidTable) : List (String × String) :=
  vrmToMixamoPairs.filterMap
    (fun pr => (tbl.lookup pr.1).map (fun nodeName => (pr.2, nodeName)))

/-- The node names present in the model's humanoid joint table. -/
def humanoidNodeNames (tbl : HumanoidTable) : List String := tbl.map Prod.snd

/- ### Heap model of `retargetAnimation`

To state the frame-effect claim (the input clip is never mutated) the
tracks live in an explicit heap: a list of `Track` values addressed by
index.  `track.clone()` allocates a fresh cell holding a copy;
`adjustHipRotation` mutates the freshly allocated clone before it is
pushed, so the allocated cell already holds the adjusted copy. -/

/-- Default value for reading a heap cell. -/
def emptyTrack : Track := ⟨"", [], []⟩

/-- A clip whose tracks are references into a track heap. -/
structure ClipRef where
  name : String
  duration : ℚ
  trackRefs : List Nat
deriving DecidableEq, Repr

/-- The `retargetAnimation` loop over the heap: for each source track
reference, read the track, and if its joint resolves, allocate the
renamed (and for the hip-root quaternion track, adjusted) clone at the
end of the heap, collecting the new reference. -/
def retargetTracksHeap (boneMap : String → Option String) (store : List Track) :
    List Nat → List Track × List Nat
  | [] => (store, [])
  | r :: rs =>
    let track := store.getD r emptyTrack
    match retargetTrack boneMap track with
    | some newTrack =>
      let newRef := store.length
      let result := retargetTracksHeap boneMap (store ++ [newTrack]) rs
      (result.1, newRef :: result.2)
    | none => retargetTracksHeap boneMap store rs

/-- `retargetAnimation` over the heap: returns the heap after the call
together with the new clip (its name and duration computed as in the
functional model). -/
def retargetAnimationHeap (boneMap : String → Option String) (nm : Option String)
    (store : List Track) (clip : ClipRef) : List Track × ClipRef :=
  let result := retargetTracksHeap boneMap store clip.trackRefs
  (result.1,
   { name := jsOrString nm (clip.name ++ " (Retargeted)")
     duration := clip.duration
     trackRefs := result.2 })

/- ### `CharacterStateMachine` -/

/-- The state-machine fields involved in state changes
(`CharacterStateMachine`).  The animation-selection bookkeeping
(`idleAnimationCooldown`, `lastIdleAnimation`) and the delegated
animation/expression side effects touch other subsystems and are
outside this state. -/
structure StateMachine where
  currentState : String
  previousState : Option String
  stateStartTime : Int
  idleMinDuration : Int
  walkingMinDuration : Int
  isTransitioning : Bool
deriving DecidableEq, Repr

/-- `this.stateMinDurations[state] || 0`: the configured minimum dwell
time of the two known states, `0` for any other key. -/
def stateMinDuration (sm : StateMachine) (state : String) : Int :=
  if state = "idle" then sm.idleMinDuration
  else if state = "walking" then sm.walkingMinDuration
  else 0

/-- `executeStateAction(state)` restricted to the modelled fields: the
`transitioning` branch sets `isTransitioning`; the `idle` and `walking`
branches only drive the animation and expression subsystems. -/
def executeStateAction (sm : StateMachine) (state : String) : StateMachine :=
  if state = "transitioning" then { sm with isTransitioning := true } else sm

/-- `CharacterStateMachine.changeState(newState, force)` at time `now`
(`Date.now()`): the early same-state return yields no value (`none`);
a dwell-time rejection returns `false` and leaves the machine unchanged;
an accepted change records the previous state, the new state and the
timestamp, then runs the state action. -/
def changeState (sm : StateMachine) (newState : String) (force : Bool) (now : Int) :
    Option Bool × StateMachine :=
  if ¬force ∧ sm.currentState = newState then (none, sm)
  else
    let currentStateDuration := now - sm.stateStartTime
    let minDuration := stateMinDuration sm sm.currentState
    if ¬force ∧ currentStateDuration < minDuration then (some false, sm)
    else
      let sm' := { sm with
        previousState := some sm.currentState
        currentState := newState
        stateStartTime := now }
      (some true, executeStateAction sm' newState)

/-- `CharacterStateMachine.requestStateChange(newState)`:
`changeState(newState, false)`. -/
def requestStateChange (sm : StateMachine) (newState : String) (now : Int) :
    Option Bool × StateMachine :=
  changeState sm newState false now

/- ### `CharacterController` boundaries and destinations -/

/-- The boundary rectangle computed by `calculateScreenBoundaries`. -/
structure Boundaries where
  minX : ℚ
  maxX : ℚ
  minZ : ℚ
  maxZ : ℚ
deriving DecidableEq, Repr

/-- `CharacterController.calculateScreenBoundaries()`:
`height = 2 * tan(vFOV / 2) * camera.position.z`,
`width = height * camera.aspect`, margin `0.5`.  The tangent of the
half field-of-view is passed in as an exact parameter. -/
def calculateScreenBoundaries (tanHalfVFov cameraZ aspect : ℚ) : Boundaries :=
  let height := 2 * tanHalfVFov * cameraZ
  let width := height * aspect
  let margin : ℚ := 1/2
  { minX := -width / 2 + margin
    maxX := width / 2 - margin
    minZ := -height / 2 + margin
    maxZ := height / 2 - margin }

/-- `THREE.MathUtils.randFloat(low, high)` with the random draw
`r = Math.random() ∈ [0, 1)` made explicit:
`low + r * (high - low)`. -/
def randFloat (low high r : ℚ) : ℚ := low + r * (high - low)

/-- `CharacterController.setRandomDestination()`: the sampled
destination (x, z), given the two `Math.random()` draws. -/
def setRandomDestination (b : Boundaries) (r1 r2 : ℚ) : ℚ × ℚ :=
  (randFloat b.minX b.maxX r1, randFloat b.minZ b.maxZ r2)

/- ### `AnimationLoader` -/

/-- A manifest entry (`{ type, path, name }`; the name is unused by the
batch loader). -/
structure AnimConfig where
  type : String
  path : String
deriving DecidableEq, Repr

/-- The two loader objects held by `AnimationLoader`. -/
inductive LoaderKind
  | fbxLoader
  | gltfLoader
deriving DecidableEq, Repr

/-- JavaScript `String.prototype.toLowerCase()` on the ASCII type tags
used by the manifest, character by character. -/
def jsToLowerCase (s : String) : String := ⟨s.data.map Char.toLower⟩

/-- `AnimationLoader.getLoaderByType(type)`: `fbx` uses the FBX loader,
`vrma`/`gltf`/`glb` the GLTF loader, anything else is `null`. -/
def getLoaderByType (type : String) : Option LoaderKind :=
  if jsToLowerCase type = "fbx" then some .fbxLoader
  else if jsToLowerCase type = "vrma" ∨ jsToLowerCase type = "gltf" ∨ jsToLowerCase type = "glb" then
    some .gltfLoader
  else none

/-- The shape of a successful `loader.load` result that `loadAnimation`
inspects: the `animations` array, the optional
`userData.vrmAnimations` array (absent `userData` collapses to `none`)
and the optional `animation` property. -/
structure LoadResult where
  animations : List Clip
  vrmAnimations : Option (List Clip)
  animation : Option Clip
deriving DecidableEq, Repr

/-- The environment's answer for one `loader.load` call: a network or
parse error, or a result object. -/
inductive LoadOutcome
  | loadError
  | loaded (result : LoadResult)
deriving DecidableEq, Repr

/-- The placeholder clip substituted when a VRMA result yields no
animation:
`new THREE.AnimationClip('dummy', 1, [new THREE.NumberKeyframeTrack('.quaternion[0]', [0, 1], [0, 0])])`. -/
def dummyClip : Clip :=
  { name := "dummy", duration := 1, tracks := [⟨".quaternion[0]", [0, 1], [0, 0]⟩] }

/-- The `commonBoneMap` literal of
`AnimationLoader.optimizeAnimationForVRM`. -/
def commonBonePairs : List (String × String) :=
  [("mixamorigHips", "hips"),
   ("mixamorigSpine", "spine"),
   ("mixamorigSpine1", "chest"),
   ("mixamorigSpine2", "upperChest"),
   ("mixamorigNeck", "neck"),
   ("mixamorigHead", "head"),
   ("mixamorigLeftShoulder", "leftShoulder"),
   ("mixamorigLeftArm", "leftUpperArm"),
   ("mixamorigLeftForeArm", "leftLowerArm"),
   ("mixamorigLeftHand", "leftHand"),
   ("mixamorigRightShoulder", "rightShoulder"),
   ("mixamorigRightArm", "rightUpperArm"),
   ("mixamorigRightForeArm", "rightLowerArm"),
   ("mixamorigRightHand", "rightHand"),
   ("mixamorigLeftUpLeg", "leftUpperLeg"),
   ("mixamorigLeftLeg", "leftLowerLeg"),
   ("mixamorigLeftFoot", "leftFoot"),
   ("mixamorigRightUpLeg", "rightUpperLeg"),
   ("mixamorigRightLeg", "rightLowerLeg"),
   ("mixamorigRightFoot", "rightFoot")]

/-- `AnimationLoader.optimizeAnimationForVRM(animation)`: deep-copy the
clip (the JSON round trip), then rename each track whose joint name is
in `commonBoneMap` to `<vrmBone>.<property>` (`split('.')[1]`), keeping
unmapped tracks as they are. -/
def optimizeAnimationForVRM (animation : Clip) : Clip :=
  { animation with
    tracks := animation.tracks.map (fun track =>
      let trackSplit := jsSplitOnDot track.name
      let boneName := trackSplit.headD ""
      let propertyName := (trackSplit.drop 1).headD ""
      match commonBonePairs.lookup boneName with
      | some vrmBoneName => { track with name := vrmBoneName ++ "." ++ propertyName }
      | none => track) }

/-- `AnimationLoader.loadAnimation(animConfig)` with the load outcome
made explicit.  `Except.error` is a rejected promise.  A resolved
promise carries a JavaScript value that is a clip or, in the degenerate
VRMA shapes, `undefined` (`none`): an fbx result resolves with its
first animation optimized for VRM (rejecting when there is none), a
vrma result resolves with the first extractable animation or the
placeholder, and every other type is rejected. -/
def loadAnimation (animConfig : AnimConfig) (outcome : LoadOutcome) :
    Except Unit (Option Clip) :=
  match getLoaderByType animConfig.type with
  | none => .error ()
  | some _ =>
    match outcome with
    | .loadError => .error ()
    | .loaded result =>
      if jsToLowerCase animConfig.type = "fbx" then
        match result.animations.head? with
        | some animation => .ok (some (optimizeAnimationForVRM animation))
        | none => .error ()
      else if jsToLowerCase animConfig.type = "vrma" then
        .ok (if result.animations.length > 0 then result.animations.head?
             else match result.vrmAnimations with
               | some vrmAnims => vrmAnims.head?
               | none => match result.animation with
                 | some animation => some animation
                 | none => some dummyClip)
      else .error ()

/-- `AnimationLoader.loadAnimations(animConfigs)`: walk the manifest in
order with its load outcomes; each successful fbx entry overwrites the
`walk` slot, each other successful entry is appended to `idle`, and a
failed entry is skipped. -/
def loadAnimations (entries : List (AnimConfig × LoadOutcome)) :
    Option Clip × List (Option Clip) :=
  entries.foldl
    (fun animations entry =>
      match loadAnimation entry.1 entry.2 with
      | .error _ => animations
      | .ok animation =>
        if jsToLowerCase entry.1.type = "fbx" then (animation, animations.2)
        else (animations.1, animations.2 ++ [animation]))
    (none, [])

/-- Declarative walk slot, following the spec's words: the value of the
last manifest entry of type `fbx` that loaded successfully, if any. -/
def specWalkSlot (entries : List (AnimConfig × LoadOutcome)) : Option Clip :=
  (entries.filterMap (fun entry =>
    match loadAnimation entry.1 entry.2 with
    | .ok animation => if jsToLowerCase entry.1.type = "fbx" then some animation else none
    | .error _ => none)).getLast?.join

/-- Declarative idle list, following the spec's words: the successfully
loaded non-fbx entries, in manifest order. -/
def specIdleList (entries : List (AnimConfig × LoadOutcome)) : List (Option Clip) :=
  entries.filterMap (fun entry =>
    match loadAnimation entry.1 entry.2 with
    | .ok animation => if jsToLowerCase entry.1.type = "fbx" then none else some animation
    | .error _ => none)

/- ### `ExpressionManager` -/

/-- An entry of the `currentExpressions` map. -/
structure ExprData where
  weight : ℚ
  startTime : Int
  duration : Int
deriving DecidableEq, Repr

/-- The `ExpressionManager` fields involved in setting expressions:
the enabled flag, the `currentExpressions` map (insertion order, as a
JavaScript `Map`) and the underlying VRM expression weight store written
through `vrm.expressionManager.setValue`. -/
structure ExpressionState where
  isEnabled : Bool
  currentExpressions : List (String × ExprData)
  vrmWeights : List (String × ℚ)
deriving DecidableEq, Repr

/-- `vrm.expressionManager.setValue(name, weight)`: update the entry in
place, or append a new one. -/
def setValue (store : List (String × ℚ)) (name : String) (weight : ℚ) :
    List (String × ℚ) :=
  match store with
  | [] => [(name, weight)]
  | (k, v) :: rest =>
    if k = name then (k, weight) :: rest else (k, v) :: setValue rest name weight

/-- `ExpressionManager.clearExpressions()`: zero the weight of every
expression in `currentExpressions`, then clear the map. -/
def clearExpressions (s : ExpressionState) : ExpressionState :=
  if ¬s.isEnabled then s
  else
    { s with
      vrmWeights := s.currentExpressions.foldl
        (fun store entry => setValue store entry.1 0) s.vrmWeights
      currentExpressions := [] }

/-- `ExpressionManager.setExpression(expressionName, weight, duration)`
at time `now`: when enabled, clear the previous expressions, set the new
weight and record the expression in the map.  (The scheduled fade-out
timer acts later and is outside the immediate post-state.) -/
def setExpression (s : ExpressionState) (expressionName : String) (weight : ℚ)
    (duration : Int) (now : Int) : ExpressionState :=
  if ¬s.isEnabled then s
  else
    let s1 := clearExpressions s
    { s1 with
      vrmWeights := setValue s1.vrmWeights expressionName weight
      currentExpressions :=
        s1.currentExpressions ++ [(expressionName, ⟨weight, now, duration⟩)] }

/- ### Claim theorems -/

/-- Double application of the per-keyframe hip correction negates all four
stored components: `yRotation180 * (yRotation180 * q) = -q`. -/
theorem adjustHipValues_twice : ∀ (l : List ℚ), l.length % 4 = 0 →
    adjustHipValues (adjustHipValues l) = l.map (fun v => -v)
  | [], _ => rfl
  | [x], h => by simp only [List.length_cons, List.length_nil] at h; omega
  | [x, y], h => by simp only [List.length_cons, List.length_nil] at h; omega
  | [x, y, z], h => by simp only [List.length_cons, List.length_nil] at h; omega
  | x :: y :: z :: w :: rest, h => by
    have h4 : rest.length % 4 = 0 := by
      simp only [List.length_cons] at h; omega
    have ih := adjustHipValues_twice rest h4
    simp only [adjustHipValues, quatPremultiply, quatMultiply, yRotation180,
      List.map_cons, ih, List.cons.injEq]
    norm_num

/-- C1 (counterexample): the hip correction applied twice does not return
the stored quaternion values to their originals; on the identity keyframe
`(0, 0, 0, 1)` it produces `(0, 0, 0, -1)`. -/
theorem adjustHipRotation_involution_cex :
    adjustHipRotation (adjustHipRotation ⟨"mixamorigHips.quaternion", [0], [0, 0, 0, 1]⟩)
      ≠ ⟨"mixamorigHips.quaternion", [0], [0, 0, 0, 1]⟩ := by
  simp only [adjustHipRotation, adjustHipValues, quatPremultiply, quatMultiply,
    yRotation180, ne_eq, Track.mk.injEq]
  norm_num

/-- C1 (amended): for every hip-root rotation track whose value buffer is
a whole number of quaternion keyframes, applying `adjustHipRotation`
twice negates every stored component.  Since `q` and `-q` encode the same
3D rotation, the correction is an involution on rotations, but not on the
stored quaternion values. -/
theorem adjustHipRotation_twice_negates (track : Track)
    (h : track.values.length % 4 = 0) :
    (adjustHipRotation (adjustHipRotation track)).values
      = track.values.map (fun v => -v) :=
  adjustHipValues_twice track.values h

/-- C1 (witness): the negation theorem evaluated on a one-keyframe track. -/
theorem adjustHipRotation_twice_negates_witness :
    (adjustHipRotation (adjustHipRotation ⟨"mixamorigHips.quaternion", [0], [0, 0, 0, 1]⟩)).values
      = ([0, 0, 0, 1] : List ℚ).map (fun v => -v) :=
  adjustHipRotation_twice_negates ⟨"mixamorigHips.quaternion", [0], [0, 0, 0, 1]⟩ (by decide)

/-- C2: for every bone map, requested name and input clip, the retargeted
clip has at most as many tracks as the input clip. -/
theorem retargetAnimation_track_count_le (boneMap : String → Option String)
    (nm : Option String) (srcClip : Clip) :
    (retargetAnimation boneMap nm srcClip).tracks.length ≤ srcClip.tracks.length :=
  List.length_filterMap_le (retargetTrack boneMap) srcClip.tracks

/-- C3 (counterexample): a clip with no mappable track retargets to zero
tracks, but the output name is not the input name: it carries the
`" (Retargeted)"` suffix. -/
theorem retargetAnimation_unmapped_name_cex :
    (retargetAnimation (fun _ => none) none
      ⟨"walk", 2, [⟨"mixamorigFoo.quaternion", [0], [0, 0, 0, 1]⟩]⟩).tracks = []
    ∧ (retargetAnimation (fun _ => none) none
      ⟨"walk", 2, [⟨"mixamorigFoo.quaternion", [0], [0, 0, 0, 1]⟩]⟩).name ≠ "walk" := by
  exact ⟨rfl, by decide⟩

/-- C3 (amended): a clip none of whose joint names resolve in the bone
map retargets, without any failure, to a clip with zero tracks, the input
duration, and the name `name || srcClip.name + " (Retargeted)"`: the
supplied name when it is truthy (non-empty), otherwise the input name
with the `" (Retargeted)"` suffix appended. -/
theorem retargetAnimation_unmapped_clip (boneMap : String → Option String)
    (nm : Option String) (srcClip : Clip)
    (h : ∀ t ∈ srcClip.tracks, boneMap ((jsSplitOnDot t.name).headD "") = none) :
    (retargetAnimation boneMap nm srcClip).tracks = []
    ∧ (retargetAnimation boneMap nm srcClip).duration = srcClip.duration
    ∧ (retargetAnimation boneMap nm srcClip).name
        = jsOrString nm (srcClip.name ++ " (Retargeted)") := by
  refine ⟨?_, rfl, rfl⟩
  simp only [retargetAnimation]
  rw [List.filterMap_eq_nil_iff]
  intro t ht
  simp only [retargetTrack, h t ht]

/-- C3 (witness): the amended theorem applied to a concrete unmappable
clip. -/
theorem retargetAnimation_unmapped_clip_witness :
    (retargetAnimation (fun _ => none) (some "renamed")
      ⟨"idle", 3, [⟨"someBone.position", [0], [1, 2, 3]⟩]⟩).tracks = [] :=
  (retargetAnimation_unmapped_clip (fun _ => none) (some "renamed")
    ⟨"idle", 3, [⟨"someBone.position", [0], [1, 2, 3]⟩]⟩
    (fun _ _ => rfl)).1

/-- C5: `validateClip` on a clip with zero tracks computes `0 / 0`, which
in JavaScript is `NaN` (modelled `none`) — not a defined number in
`[0, 1]`; on every clip with at least one track the ratio is defined and
equals `valid / total`, which lies in `[0, 1]`. -/
theorem validateClip_ratio_nan_on_empty :
    (validateClip [] ⟨"empty", 1, []⟩).validRatio = none
    ∧ ∀ (availableBones : List String) (clip : Clip), clip.tracks ≠ [] →
        (validateClip availableBones clip).validRatio
          = some (((validateClip availableBones clip).valid : ℚ)
              / ((validateClip availableBones clip).total : ℚ))
        ∧ (0 : ℚ) ≤ ((validateClip availableBones clip).valid : ℚ)
              / ((validateClip availableBones clip).total : ℚ)
        ∧ ((validateClip availableBones clip).valid : ℚ)
              / ((validateClip availableBones clip).total : ℚ) ≤ 1 := by
  constructor
  · rfl
  · intro availableBones clip h
    have hlen : clip.tracks.length ≠ 0 := fun h0 => h (List.length_eq_zero.mp h0)
    have hpos : (0 : ℚ) < (clip.tracks.length : ℚ) := by
      exact_mod_cast Nat.pos_of_ne_zero hlen
    have hval : (validateClip availableBones clip).valid
        = (clip.tracks.filter
            (fun t => ((jsSplitOnDot t.name).headD "") ∈ availableBones)).length := rfl
    have htot : (validateClip availableBones clip).total = clip.tracks.length := rfl
    have hfilter : (clip.tracks.filter
        (fun t => ((jsSplitOnDot t.name).headD "") ∈ availableBones)).length
        ≤ clip.tracks.length := List.length_filter_le _ _
    refine ⟨?_, ?_, ?_⟩
    · show jsDiv _ _ = _
      rw [hval, htot, jsDiv, if_neg (by exact_mod_cast hlen)]
    · rw [hval, htot]
      positivity
    · rw [hval, htot, div_le_one hpos]
      exact_mod_cast hfilter

/-- C5 (witness): the defined-ratio part evaluated on a one-track clip. -/
theorem validateClip_ratio_nan_on_empty_witness :
    (validateClip ["Hips"] ⟨"clip", 1, [⟨"Hips.quaternion", [0], [0, 0, 0, 1]⟩]⟩).validRatio
      = some (((validateClip ["Hips"] ⟨"clip", 1, [⟨"Hips.quaternion", [0], [0, 0, 0, 1]⟩]⟩).valid : ℚ)
          / ((validateClip ["Hips"] ⟨"clip", 1, [⟨"Hips.quaternion", [0], [0, 0, 0, 1]⟩]⟩).total : ℚ)) :=
  (validateClip_ratio_nan_on_empty.2 ["Hips"]
    ⟨"clip", 1, [⟨"Hips.quaternion", [0], [0, 0, 0, 1]⟩]⟩ (by decide)).1

/-- A successful association-list lookup returns one of the stored
values. -/
theorem lookup_mem_snd {tbl : List (String × String)} {k v : String}
    (h : tbl.lookup k = some v) : v ∈ tbl.map Prod.snd := by
  induction tbl with
  | nil => simp [List.lookup] at h
  | cons hd tl ih =>
    obtain ⟨k1, v1⟩ := hd
    simp only [List.lookup] at h
    cases hbeq : (k == k1) with
    | true =>
      rw [hbeq] at h
      simp only [Option.some.injEq] at h
      subst h
      exact List.mem_cons_self _ _
    | false =>
      rw [hbeq] at h
      exact List.mem_cons_of_mem _ (ih h)

/-- C6: every non-null value of the bone map built by
`getMixamoToVRMBoneMap` is the node name of an entry of the model's
humanoid joint table, and likewise every value of the analyzer's
`generateAccurateBoneMapping`; neither map invents joint names. -/
theorem boneMap_never_invents_joints (tbl : HumanoidTable) :
    (∀ p ∈ getMixamoToVRMBoneMap tbl, ∀ v, p.2 = some v → v ∈ humanoidNodeNames tbl)
    ∧ (∀ p ∈ generateAccurateBoneMapping tbl, p.2 ∈ humanoidNodeNames tbl) := by
  constructor
  · intro p hp v hv
    obtain ⟨pr, -, rfl⟩ := List.mem_map.mp hp
    exact lookup_mem_snd hv
  · intro p hp
    obtain ⟨pr, -, heq⟩ := List.mem_filterMap.mp hp
    obtain ⟨n, hn, hpn⟩ := Option.map_eq_some'.mp heq
    subst hpn
    exact lookup_mem_snd hn

/-- C6 (witness): on a one-joint humanoid table, the hips entry of the
bone map resolves to that joint's node name, which is in the table. -/
theorem boneMap_never_invents_joints_witness :
    "Root_Hips" ∈ humanoidNodeNames [("hips", "Root_Hips")] :=
  (boneMap_never_invents_joints [("hips", "Root_Hips")]).1
    ("mixamorigHips", some "Root_Hips") (by decide) "Root_Hips" rfl

/-- The heap only grows during retargeting: the heap after the call is
the heap before the call followed by the allocated clones. -/
theorem retargetTracksHeap_append (boneMap : String → Option String) :
    ∀ (refs : List Nat) (store : List Track),
      ∃ ext, (retargetTracksHeap boneMap store refs).1 = store ++ ext := by
  intro refs
  induction refs with
  | nil => exact fun store => ⟨[], (List.append_nil store).symm⟩
  | cons r rs ih =>
    intro store
    simp only [retargetTracksHeap]
    cases hmatch : retargetTrack boneMap (store.getD r emptyTrack) with
    | some newTrack =>
      obtain ⟨ext, hext⟩ := ih (store ++ [newTrack])
      exact ⟨newTrack :: ext, by simp [hmatch, hext]⟩
    | none =>
      simpa [hmatch] using ih store

/-- C4: retargeting never mutates the input clip.  Over the explicit
track heap, every cell that existed before the call (in particular every
cell the input clip's track references point to) holds the same track
after the call: names, times and keyframe values are all unchanged; the
hip correction only ever touches freshly allocated clones. -/
theorem retargetAnimation_no_mutation (boneMap : String → Option String)
    (nm : Option String) (store : List Track) (clip : ClipRef)
    (h : ∀ r ∈ clip.trackRefs, r < store.length) :
    (retargetAnimationHeap boneMap nm store clip).1.take store.length = store
    ∧ clip.trackRefs.map
        (fun r => (retargetAnimationHeap boneMap nm store clip).1.getD r emptyTrack)
      = clip.trackRefs.map (fun r => store.getD r emptyTrack) := by
  obtain ⟨ext, hext⟩ := retargetTracksHeap_append boneMap clip.trackRefs store
  have h1 : (retargetAnimationHeap boneMap nm store clip).1 = store ++ ext := hext
  constructor
  · rw [h1, List.take_left]
  · apply List.map_congr_left
    intro r hr
    rw [h1]
    exact List.getD_append _ _ _ _ (h r hr)

/-- C4 (witness): the no-mutation theorem evaluated on a heap holding one
hip-root track that the bone map resolves (so the correction path runs),
showing the original cell untouched. -/
theorem retargetAnimation_no_mutation_witness :
    (retargetAnimationHeap (fun n => if n = "mixamorigHips" then some "Hips" else none)
      none [⟨"mixamorigHips.quaternion", [0], [0, 0, 0, 1]⟩]
      ⟨"walk", 2, [0]⟩).1.take
        ([⟨"mixamorigHips.quaternion", [0], [0, 0, 0, 1]⟩] : List Track).length
      = [⟨"mixamorigHips.quaternion", [0], [0, 0, 0, 1]⟩] :=
  (retargetAnimation_no_mutation
    (fun n => if n = "mixamorigHips" then some "Hips" else none) none
    [⟨"mixamorigHips.quaternion", [0], [0, 0, 0, 1]⟩] ⟨"walk", 2, [0]⟩
    (by decide)).1

/-- C7: requesting a different target state before the current state's
minimum dwell time has elapsed returns `false` and changes nothing; at or
after the minimum dwell time it returns `true`, installs the target state
and stamps the entry time with `now`. -/
theorem requestStateChange_dwell (sm : StateMachine) (target : String) (now : Int)
    (hne : target ≠ sm.currentState) :
    (now - sm.stateStartTime < stateMinDuration sm sm.currentState →
      requestStateChange sm target now = (some false, sm))
    ∧ (stateMinDuration sm sm.currentState ≤ now - sm.stateStartTime →
      (requestStateChange sm target now).1 = some true
      ∧ (requestStateChange sm target now).2.currentState = target
      ∧ (requestStateChange sm target now).2.stateStartTime = now) := by
  have hcond : ¬(¬(false = true) ∧ sm.currentState = target) :=
    fun hc => hne hc.2.symm
  constructor
  · intro hlt
    simp only [requestStateChange, changeState]
    rw [if_neg hcond, if_pos ⟨by simp, hlt⟩]
  · intro hge
    have hcond2 : ¬(¬(false = true) ∧ now - sm.stateStartTime
        < stateMinDuration sm sm.currentState) :=
      fun hc => absurd hc.2 (not_lt.mpr hge)
    simp only [requestStateChange, changeState]
    rw [if_neg hcond, if_neg hcond2]
    refine ⟨rfl, ?_, ?_⟩ <;>
      · simp only [executeStateAction]
        split <;> rfl

/-- C7 (witness): with a 6000 ms idle dwell, a walk request at 100 ms is
rejected and leaves the machine untouched. -/
theorem requestStateChange_dwell_witness :
    requestStateChange ⟨"idle", none, 0, 6000, 5000, false⟩ "walking" 100
      = (some false, ⟨"idle", none, 0, 6000, 5000, false⟩) :=
  (requestStateChange_dwell ⟨"idle", none, 0, 6000, 5000, false⟩ "walking" 100
    (by decide)).1 (by decide)

/-- `randFloat` stays between its endpoints when the interval is ordered
and the draw is in `[0, 1)`. -/
theorem randFloat_bounds (low high r : ℚ) (hle : low ≤ high) (h0 : 0 ≤ r)
    (h1 : r < 1) : low ≤ randFloat low high r ∧ randFloat low high r ≤ high := by
  unfold randFloat
  constructor
  · nlinarith
  · nlinarith

/-- C8 (counterexample): the claim fails for degenerate camera geometry.
With `tan(vFOV/2) = 1`, camera z `0` and aspect `1`, the computed
rectangle has `minZ = 1/2 > maxZ = -1/2`, and the destination drawn at
`r1 = r2 = 0` (an admissible `Math.random()` draw) does not satisfy
`minZ ≤ z ∧ z ≤ maxZ`. -/
theorem setRandomDestination_in_bounds_cex :
    (0 : ℚ) ≤ 0 ∧ (0 : ℚ) < 1
    ∧ ¬((calculateScreenBoundaries 1 0 1).minZ
          ≤ (setRandomDestination (calculateScreenBoundaries 1 0 1) 0 0).2
        ∧ (setRandomDestination (calculateScreenBoundaries 1 0 1) 0 0).2
          ≤ (calculateScreenBoundaries 1 0 1).maxZ) := by
  refine ⟨le_refl 0, by norm_num, ?_⟩
  simp only [calculateScreenBoundaries, setRandomDestination, randFloat]
  norm_num

/-- C8 (amended): whenever the rectangle computed by
`calculateScreenBoundaries` is nonempty (its min bounds do not exceed its
max bounds — true for the intended camera geometry, where the visible
floor area is wider than twice the safety margin), every destination
sampled with draws in `[0, 1)` lies inside it. -/
theorem setRandomDestination_in_bounds (tanHalfVFov cameraZ aspect r1 r2 : ℚ)
    (hr1a : 0 ≤ r1) (hr1b : r1 < 1) (hr2a : 0 ≤ r2) (hr2b : r2 < 1)
    (hx : (calculateScreenBoundaries tanHalfVFov cameraZ aspect).minX
      ≤ (calculateScreenBoundaries tanHalfVFov cameraZ aspect).maxX)
    (hz : (calculateScreenBoundaries tanHalfVFov cameraZ aspect).minZ
      ≤ (calculateScreenBoundaries tanHalfVFov cameraZ aspect).maxZ) :
    (calculateScreenBoundaries tanHalfVFov cameraZ aspect).minX
      ≤ (setRandomDestination (calculateScreenBoundaries tanHalfVFov cameraZ aspect) r1 r2).1
    ∧ (setRandomDestination (calculateScreenBoundaries tanHalfVFov cameraZ aspect) r1 r2).1
      ≤ (calculateScreenBoundaries tanHalfVFov cameraZ aspect).maxX
    ∧ (calculateScreenBoundaries tanHalfVFov cameraZ aspect).minZ
      ≤ (setRandomDestination (calculateScreenBoundaries tanHalfVFov cameraZ aspect) r1 r2).2
    ∧ (setRandomDestination (calculateScreenBoundaries tanHalfVFov cameraZ aspect) r1 r2).2
      ≤ (calculateScreenBoundaries tanHalfVFov cameraZ aspect).maxZ := by
  obtain ⟨hx1, hx2⟩ := randFloat_bounds _ _ r1 hx hr1a hr1b
  obtain ⟨hz1, hz2⟩ := randFloat_bounds _ _ r2 hz hr2a hr2b
  exact ⟨hx1, hx2, hz1, hz2⟩

/-- C8 (witness): the amended theorem on a nondegenerate camera
(`tan(vFOV/2) = 1`, z = 1, aspect 1, both draws `1/2`). -/
theorem setRandomDestination_in_bounds_witness :
    (calculateScreenBoundaries 1 1 1).minX
      ≤ (setRandomDestination (calculateScreenBoundaries 1 1 1) (1/2) (1/2)).1
    ∧ (setRandomDestination (calculateScreenBoundaries 1 1 1) (1/2) (1/2)).1
      ≤ (calculateScreenBoundaries 1 1 1).maxX
    ∧ (calculateScreenBoundaries 1 1 1).minZ
      ≤ (setRandomDestination (calculateScreenBoundaries 1 1 1) (1/2) (1/2)).2
    ∧ (setRandomDestination (calculateScreenBoundaries 1 1 1) (1/2) (1/2)).2
      ≤ (calculateScreenBoundaries 1 1 1).maxZ :=
  setRandomDestination_in_bounds 1 1 1 (1/2) (1/2)
    (by norm_num) (by norm_num) (by norm_num) (by norm_num)
    (by simp only [calculateScreenBoundaries]; norm_num)
    (by simp only [calculateScreenBoundaries]; norm_num)

/-- `getD` after a cons `getLast?`: the head becomes the new default. -/
theorem getLast?_getD_cons {α : Type} :
    ∀ (xs : List α) (x d : α), ((x :: xs).getLast?).getD d = (xs.getLast?).getD x
  | [], _, _ => rfl
  | y :: ys, x, d => by
    rw [List.getLast?_cons_cons, getLast?_getD_cons ys y d, getLast?_getD_cons ys y x]

/-- `Option.join` is `getD none`. -/
theorem option_join_eq_getD_none {α : Type} (o : Option (Option α)) :
    o.join = o.getD none := by cases o <;> rfl

/-- The batch-load fold from an arbitrary accumulator: the walk slot ends
as the last successful fbx value (defaulting to the incoming slot) and
the idle list as the incoming list extended, in order, by the successful
non-fbx values. -/
theorem loadAnimations_foldl_aux :
    ∀ (entries : List (AnimConfig × LoadOutcome)) (w : Option Clip)
      (l : List (Option Clip)),
      entries.foldl
        (fun animations entry =>
          match loadAnimation entry.1 entry.2 with
          | .error _ => animations
          | .ok animation =>
            if jsToLowerCase entry.1.type = "fbx" then (animation, animations.2)
            else (animations.1, animations.2 ++ [animation]))
        (w, l)
      = (((entries.filterMap (fun entry =>
            match loadAnimation entry.1 entry.2 with
            | .ok animation =>
              if jsToLowerCase entry.1.type = "fbx" then some animation else none
            | .error _ => none)).getLast?).getD w,
         l ++ specIdleList entries)
  | [], w, l => by simp [specIdleList]
  | e :: rest, w, l => by
    rw [List.foldl_cons, List.filterMap_cons]
    have hidle : specIdleList (e :: rest)
        = (match loadAnimation e.1 e.2 with
           | .ok animation =>
             if jsToLowerCase e.1.type = "fbx" then none else some animation
           | .error _ => none).toList ++ specIdleList rest := by
      rw [specIdleList, specIdleList, List.filterMap_cons]
      cases loadAnimation e.1 e.2 with
      | error err => rfl
      | ok animation =>
        by_cases hfbx : jsToLowerCase e.1.type = "fbx" <;> simp [hfbx]
    cases hload : loadAnimation e.1 e.2 with
    | error err =>
      rw [loadAnimations_foldl_aux rest w l]
      simp [hidle, hload]
    | ok animation =>
      by_cases hfbx : jsToLowerCase e.1.type = "fbx"
      · simp only [hload, hfbx, if_pos]
        rw [loadAnimations_foldl_aux rest animation l]
        simp [hidle, hload, hfbx, getLast?_getD_cons]
      · simp only [hload, hfbx, if_neg, ite_false]
        rw [loadAnimations_foldl_aux rest w (l ++ [animation])]
        simp [hidle, hload, hfbx]

/-- C9: the batch loader is total over its manifest (an individual
failure only skips that entry), its walk slot holds the value of the
last successfully loaded fbx entry (or stays `null`), and its idle list
holds, in manifest order, every successfully loaded non-fbx entry; in
particular one loadable fbx walk entry plus three loadable vrma idle
entries yield the walk clip (optimized for VRM) and three idle clips. -/
theorem loadAnimations_classification :
    (∀ entries, loadAnimations entries = (specWalkSlot entries, specIdleList entries))
    ∧ loadAnimations
        [(⟨"fbx", "walk.fbx"⟩,
          .loaded ⟨[⟨"walk", 1, [⟨"mixamorigHips.quaternion", [0], [0, 0, 0, 1]⟩]⟩], none, none⟩),
         (⟨"vrma", "idle1.vrma"⟩, .loaded ⟨[⟨"idle1", 1, []⟩], none, none⟩),
         (⟨"vrma", "idle2.vrma"⟩, .loaded ⟨[⟨"idle2", 1, []⟩], none, none⟩),
         (⟨"vrma", "idle3.vrma"⟩, .loaded ⟨[⟨"idle3", 1, []⟩], none, none⟩)]
      = (some ⟨"walk", 1, [⟨"hips.quaternion", [0], [0, 0, 0, 1]⟩]⟩,
         [some ⟨"idle1", 1, []⟩, some ⟨"idle2", 1, []⟩, some ⟨"idle3", 1, []⟩]) := by
  constructor
  · intro entries
    rw [loadAnimations, loadAnimations_foldl_aux, specWalkSlot,
      option_join_eq_getD_none, List.nil_append]
  · decide

/-- Looking up the key just written by `setValue` yields the written
weight. -/
theorem lookup_setValue_self :
    ∀ (store : List (String × ℚ)) (name : String) (weight : ℚ),
      (setValue store name weight).lookup name = some weight
  | [], name, weight => by simp [setValue, List.lookup]
  | (k, v) :: rest, name, weight => by
    by_cases hk : k = name
    · simp [setValue, hk, List.lookup]
    · have hb : (name == k) = false :=
        beq_eq_false_iff_ne.mpr (fun he => hk he.symm)
      simp [setValue, hk, List.lookup, hb, lookup_setValue_self rest name weight]

/-- `setValue` does not disturb other keys. -/
theorem lookup_setValue_ne :
    ∀ (store : List (String × ℚ)) (name : String) (weight : ℚ) (n : String),
      n ≠ name → (setValue store name weight).lookup n = store.lookup n
  | [], name, weight, n, hne => by
    have hb : (n == name) = false := beq_eq_false_iff_ne.mpr hne
    simp [setValue, List.lookup, hb]
  | (k, v) :: rest, name, weight, n, hne => by
    by_cases hk : k = name
    · subst hk
      have hb : (n == k) = false := beq_eq_false_iff_ne.mpr hne
      simp [setValue, List.lookup, hb]
    · simp only [setValue, if_neg hk, List.lookup]
      cases hbeq : (n == k) with
      | true => simp only [hbeq]
      | false =>
        simp only [hbeq]
        exact lookup_setValue_ne rest name weight n hne

/-- After the clearing fold, every name that was in the map (or already
had weight zero) reads weight zero. -/
theorem lookup_clear_fold :
    ∀ (l : List (String × ExprData)) (store : List (String × ℚ)) (n : String),
      (store.lookup n = some 0 ∨ n ∈ l.map Prod.fst) →
      ((l.foldl (fun st e => setValue st e.1 0) store).lookup n) = some 0
  | [], store, n, h => by
    rcases h with h | h
    · simpa using h
    · simp at h
  | e :: rest, store, n, h => by
    rw [List.foldl_cons]
    apply lookup_clear_fold rest
    by_cases hn : n = e.1
    · refine Or.inl ?_
      rw [hn]
      exact lookup_setValue_self store e.1 0
    · rcases h with h | h
      · exact Or.inl ((lookup_setValue_ne store e.1 0 n hn).trans h)
      · rw [List.map_cons] at h
        rcases List.mem_cons.mp h with h1 | h1
        · exact absurd h1 hn
        · exact Or.inr h1

/-- C10: on an enabled manager, `setExpression` first zeroes every
previously active expression's weight and clears the map, so immediately
afterwards the active-expression map holds exactly the newly set
expression, and every other previously active expression reads weight
zero in the underlying VRM store. -/
theorem setExpression_single_active (s : ExpressionState) (expressionName : String)
    (weight : ℚ) (duration now : Int) (h : s.isEnabled = true) :
    (setExpression s expressionName weight duration now).currentExpressions
      = [(expressionName, ⟨weight, now, duration⟩)]
    ∧ ∀ n ∈ s.currentExpressions.map Prod.fst, n ≠ expressionName →
        ((setExpression s expressionName weight duration now).vrmWeights).lookup n
          = some 0 := by
  have hw : (setExpression s expressionName weight duration now).vrmWeights
      = setValue (s.currentExpressions.foldl
          (fun st e => setValue st e.1 0) s.vrmWeights) expressionName weight := by
    simp [setExpression, clearExpressions, h]
  constructor
  · simp [setExpression, clearExpressions, h]
  · intro n hn hne
    rw [hw, lookup_setValue_ne _ _ _ _ hne]
    exact lookup_clear_fold s.currentExpressions s.vrmWeights n (Or.inr hn)

/-- C10 (witness): setting `sad` on a manager with `happy` active leaves
`happy` at weight zero. -/
theorem setExpression_single_active_witness :
    ((setExpression ⟨true, [("happy", ⟨4/5, 0, 1500⟩)], [("happy", 4/5)]⟩
        "sad" (3/5) 1800 2000).vrmWeights).lookup "happy" = some 0 :=
  (setExpression_single_active ⟨true, [("happy", ⟨4/5, 0, 1500⟩)], [("happy", 4/5)]⟩
    "sad" (3/5) 1800 2000 rfl).2 "happy" (by decide) (by decide)
